import Mathlib

/-!
Shallow embedding of the trashmap library (src/src/lib.rs).

The library stores precomputed 64-bit hashes (`Trash`) as the keys of a
standard hash map or hash set whose hashing step is a pass-through
(`KnownHasher`).  Machine `u64` values are modelled as `Nat`: the library
never performs arithmetic on hashes, so no overflow can occur.  The inner
`std::collections::HashMap` / `HashSet` keyed by `Trash` are modelled as
association lists keyed by the raw hash value; the operations mirror the
observable contract of the std containers (`insert` returns the previous
value, `remove` returns the removed value, and so on).  Panics are modelled
as `Except.error` carrying the panic message.
-/

/-- `Trash` wraps a single 64-bit hash value (lib.rs line 66). -/
structure Trash where
  hash : Nat
deriving DecidableEq

/-- `Trash.get_hash` exposes the raw value (lib.rs lines 69-71). -/
def Trash.get_hash (t : Trash) : Nat :=
  t.hash

/-- `KnownHasher` state: at most one written 64-bit value (lib.rs lines 39-41). -/
structure KnownHasher where
  hash : Option Nat
deriving DecidableEq

/-- `Hasher::write` for `KnownHasher` (lib.rs lines 45-47): any raw-byte write
panics unconditionally. -/
def KnownHasher.write (_h : KnownHasher) (_bytes : List Nat) : Except String KnownHasher :=
  Except.error "KnownHasher must be called with known u64 hash values"

/-- `Hasher::write_u64` for `KnownHasher` (lib.rs lines 50-53).  The `debug`
flag tells whether `debug_assert!` is active (debug build) or compiled out
(release build); when active, a second write panics, otherwise the new value
silently overwrites the old one. -/
def KnownHasher.write_u64 (debug : Bool) (h : KnownHasher) (i : Nat) : Except String KnownHasher :=
  if debug && h.hash.isSome then
    Except.error "assertion failed: self.hash.is_none()"
  else
    Except.ok { hash := some i }

/-- `Hasher::finish` for `KnownHasher` (lib.rs lines 56-58): reports the stored
value, panicking when nothing was written. -/
def KnownHasher.finish (h : KnownHasher) : Except String Nat :=
  match h.hash with
  | some v => Except.ok v
  | none => Except.error "Nothing was hashed"

/-- Model of the inner `HashMap<Trash, V, BuildHasherDefault<KnownHasher>>`
(lib.rs line 97) as an association list keyed by the raw hash value.  Thanks
to the pass-through hasher the container behaves as a map keyed by `u64`
equality. -/
structure HMap (V : Type) where
  entries : List (Nat × V)

/-- `HashMap::get`: the value stored at key `k`, if any. -/
def HMap.get {V : Type} (m : HMap V) (k : Nat) : Option V :=
  (m.entries.find? (fun p => p.1 == k)).map (fun p => p.2)

/-- `HashMap::insert`: stores `v` at `k`, returning the previous value at `k`. -/
def HMap.insert {V : Type} (m : HMap V) (k : Nat) (v : V) : Option V × HMap V :=
  (m.get k, { entries := (k, v) :: m.entries.filter (fun p => p.1 != k) })

/-- `HashMap::remove`: removes the entry at `k`, returning its value. -/
def HMap.remove {V : Type} (m : HMap V) (k : Nat) : Option V × HMap V :=
  (m.get k, { entries := m.entries.filter (fun p => p.1 != k) })

/-- Model of the inner `HashSet<Trash, BuildHasherDefault<KnownHasher>>`
(lib.rs line 270) as a list of raw hash values. -/
structure HSet where
  elems : List Nat

/-- `HashSet::contains`. -/
def HSet.contains (s : HSet) (k : Nat) : Bool :=
  s.elems.any (fun x => x == k)

/-- `HashSet::insert`: returns true when the element was newly inserted. -/
def HSet.insert (s : HSet) (k : Nat) : Bool × HSet :=
  if s.contains k then (false, s) else (true, { elems := k :: s.elems })

/-- `HashSet::remove`: returns true when an element was actually removed. -/
def HSet.remove (s : HSet) (k : Nat) : Bool × HSet :=
  (s.contains k, { elems := s.elems.filter (fun x => x != k) })

/-- `TrashMap<K, V, S>` (lib.rs lines 95-99).  The hashing strategy `S` is
modelled by the digest function it induces on keys: `hasher k` is the result
of feeding `k` through a hasher built by the fixed strategy instance, which
is deterministic per instance. -/
structure TrashMap (K V : Type) where
  hasher : K → Nat
  map : HMap V

/-- `TrashMap::trash` (lib.rs lines 199-207): the sole hashing entry point. -/
def TrashMap.trash {K V : Type} (m : TrashMap K V) (k : K) : Trash :=
  { hash := m.hasher k }

/-- `TrashMap::insert` (lib.rs lines 131-139): hashes the key, stores the
value, returns the `Trash` id (the previous value is discarded). -/
def TrashMap.insert {K V : Type} (m : TrashMap K V) (k : K) (v : V) : Trash × TrashMap K V :=
  (m.trash k, { m with map := (m.map.insert (m.trash k).hash v).2 })

/-- `TrashMap::insert_id` (lib.rs lines 145-148): inserts at a caller-supplied
id, returning the previous value. -/
def TrashMap.insert_id {K V : Type} (m : TrashMap K V) (t : Trash) (v : V) :
    Option V × TrashMap K V :=
  ((m.map.insert t.hash v).1, { m with map := (m.map.insert t.hash v).2 })

/-- `TrashMap::insert_replace` (lib.rs lines 153-160): returns the id and the
previous value. -/
def TrashMap.insert_replace {K V : Type} (m : TrashMap K V) (k : K) (v : V) :
    (Trash × Option V) × TrashMap K V :=
  ((m.trash k, (m.map.insert (m.trash k).hash v).1),
    { m with map := (m.map.insert (m.trash k).hash v).2 })

/-- `TrashMap::get` (lib.rs lines 164-166). -/
def TrashMap.get {K V : Type} (m : TrashMap K V) (t : Trash) : Option V :=
  m.map.get t.hash

/-- `TrashMap::get_key` (lib.rs lines 170-177): computes the id, then looks up. -/
def TrashMap.get_key {K V : Type} (m : TrashMap K V) (k : K) : Option V :=
  m.map.get (m.trash k).hash

/-- `TrashMap::remove` (lib.rs lines 182-184). -/
def TrashMap.remove {K V : Type} (m : TrashMap K V) (t : Trash) : Option V × TrashMap K V :=
  ((m.map.remove t.hash).1, { m with map := (m.map.remove t.hash).2 })

/-- `TrashMap::remove_key` (lib.rs lines 188-195): computes the id, then removes. -/
def TrashMap.remove_key {K V : Type} (m : TrashMap K V) (k : K) : Option V × TrashMap K V :=
  ((m.map.remove (m.trash k).hash).1, { m with map := (m.map.remove (m.trash k).hash).2 })

/-- `TrashSet<K, S>` (lib.rs lines 268-272). -/
structure TrashSet (K : Type) where
  hasher : K → Nat
  set : HSet

/-- `TrashSet::trash` (lib.rs lines 372-380): the sole hashing entry point. -/
def TrashSet.trash {K : Type} (s : TrashSet K) (k : K) : Trash :=
  { hash := s.hasher k }

/-- `TrashSet::insert` (lib.rs lines 304-312): returns the `Trash` id. -/
def TrashSet.insert {K : Type} (s : TrashSet K) (k : K) : Trash × TrashSet K :=
  (s.trash k, { s with set := (s.set.insert (s.trash k).hash).2 })

/-- `TrashSet::insert_check` (lib.rs lines 317-324): returns the id and whether
the entry was previously absent. -/
def TrashSet.insert_check {K : Type} (s : TrashSet K) (k : K) : (Trash × Bool) × TrashSet K :=
  ((s.trash k, (s.set.insert (s.trash k).hash).1),
    { s with set := (s.set.insert (s.trash k).hash).2 })

/-- `TrashSet::insert_id` (lib.rs lines 330-333). -/
def TrashSet.insert_id {K : Type} (s : TrashSet K) (t : Trash) : Bool × TrashSet K :=
  ((s.set.insert t.hash).1, { s with set := (s.set.insert t.hash).2 })

/-- `TrashSet::contains` (lib.rs lines 337-339). -/
def TrashSet.contains {K : Type} (s : TrashSet K) (t : Trash) : Bool :=
  s.set.contains t.hash

/-- `TrashSet::contains_key` (lib.rs lines 345-352): computes the id, then
checks membership.  Note that the code returns only the boolean: the computed
id is dropped. -/
def TrashSet.contains_key {K : Type} (s : TrashSet K) (k : K) : Bool :=
  s.set.contains (s.trash k).hash

/-- `TrashSet::remove` (lib.rs lines 356-358). -/
def TrashSet.remove {K : Type} (s : TrashSet K) (t : Trash) : Bool × TrashSet K :=
  ((s.set.remove t.hash).1, { s with set := (s.set.remove t.hash).2 })

/-- `TrashSet::remove_key` (lib.rs lines 362-368). -/
def TrashSet.remove_key {K : Type} (s : TrashSet K) (k : K) : Bool × TrashSet K :=
  ((s.set.remove (s.trash k).hash).1, { s with set := (s.set.remove (s.trash k).hash).2 })

/-! ### Helper lemmas about the inner containers -/

theorem HMap.get_insert_self {V : Type} (m : HMap V) (k : Nat) (v : V) :
    ((m.insert k v).2).get k = some v := by
  simp [HMap.insert, HMap.get, List.find?]

theorem find_filter_ne_self {V : Type} (l : List (Nat × V)) (k : Nat) :
    (l.filter (fun p => p.1 != k)).find? (fun p => p.1 == k) = none := by
  induction l with
  | nil => rfl
  | cons a l ih =>
    by_cases h : a.1 = k
    · rw [List.filter_cons_of_neg (by simp [h])]
      exact ih
    · rw [List.filter_cons_of_pos (by simp [h]),
        List.find?_cons_of_neg _ (by simp [h])]
      exact ih

theorem HMap.get_remove_self {V : Type} (m : HMap V) (k : Nat) :
    ((m.remove k).2).get k = none := by
  simp [HMap.remove, HMap.get, find_filter_ne_self]

theorem find_filter_other {V : Type} (l : List (Nat × V)) (k j : Nat) (hkj : k ≠ j) :
    (l.filter (fun p => p.1 != j)).find? (fun p => p.1 == k) =
      l.find? (fun p => p.1 == k) := by
  induction l with
  | nil => rfl
  | cons a l ih =>
    by_cases h : a.1 = j
    · have hak : ¬ ((a.1 == k) = true) := by
        simp [h]
        exact fun hh => hkj hh.symm
      rw [List.filter_cons_of_neg (by simp [h]), ih,
        List.find?_cons_of_neg (p := fun q => q.1 == k) (a := a) l hak]
    · by_cases h2 : a.1 = k
      · rw [List.filter_cons_of_pos (by simp [h]),
          List.find?_cons_of_pos _ (by simp [h2]),
          List.find?_cons_of_pos _ (by simp [h2])]
      · rw [List.filter_cons_of_pos (by simp [h]),
          List.find?_cons_of_neg _ (by simp [h2]),
          List.find?_cons_of_neg _ (by simp [h2]), ih]

theorem HMap.get_insert_other {V : Type} (m : HMap V) (k j : Nat) (v : V) (hkj : k ≠ j) :
    ((m.insert j v).2).get k = m.get k := by
  have hjk : ¬ ((((j, v) : Nat × V).1 == k) = true) := by
    simp
    exact fun hh => hkj hh.symm
  simp only [HMap.insert, HMap.get]
  rw [List.find?_cons_of_neg (p := fun q => q.1 == k) (a := ((j, v) : Nat × V))
      (m.entries.filter (fun q => q.1 != j)) hjk,
    find_filter_other _ k j hkj]

theorem HSet.contains_insert_self (s : HSet) (k : Nat) :
    ((s.insert k).2).contains k = true := by
  unfold HSet.insert
  by_cases h : s.contains k = true
  · rw [if_pos h]
    exact h
  · rw [if_neg h]
    simp [HSet.contains]

theorem HSet.fst_insert (s : HSet) (k : Nat) :
    (s.insert k).1 = !(s.contains k) := by
  unfold HSet.insert
  by_cases h : s.contains k = true
  · rw [if_pos h, h]
    rfl
  · rw [if_neg h]
    simp only [Bool.not_eq_true] at h
    rw [h]
    rfl

theorem any_filter_ne_self (l : List Nat) (k : Nat) :
    (l.filter (fun x => x != k)).any (fun x => x == k) = false := by
  induction l with
  | nil => rfl
  | cons a l ih =>
    by_cases h : a = k
    · rw [List.filter_cons_of_neg (by simp [h])]
      exact ih
    · rw [List.filter_cons_of_pos (by simp [h])]
      simp [h, ih]

theorem HSet.contains_remove_self (s : HSet) (k : Nat) :
    ((s.remove k).2).contains k = false := by
  simp [HSet.remove, HSet.contains, any_filter_ne_self]

/-! ### Concrete instances used by witnesses -/

/-- A concrete map over `Nat` keys whose strategy digests a key to itself. -/
def natMap : TrashMap Nat Nat :=
  { hasher := fun n => n, map := { entries := [] } }

/-- A concrete set over `Nat` keys whose strategy digests a key to itself. -/
def natSet : TrashSet Nat :=
  { hasher := fun n => n, set := { elems := [] } }

/-! ### Claims -/

/-- C1: for every key `k` and value `v`, if `insert(k, v)` returns id `id`,
then `get(id)` returns the value equal to `v`; and after `remove(id)`,
`get(id)` returns absent (`none`). -/
theorem C1_insert_get_remove {K V : Type} (m : TrashMap K V) (k : K) (v : V) :
    ((m.insert k v).2).get (m.insert k v).1 = some v ∧
    ((((m.insert k v).2).remove (m.insert k v).1).2).get (m.insert k v).1 = none :=
  ⟨HMap.get_insert_self m.map (m.hasher k) v,
    HMap.get_remove_self ((m.map.insert (m.hasher k) v).2) (m.hasher k)⟩

/-- C2 on the code as written: `contains_key` returns only the membership
boolean computed at the internally derived id; the `Trash` id itself is
discarded, unlike `insert_check` which returns the id beside the boolean. -/
theorem C2_contains_key_discards_id {K : Type} (s : TrashSet K) (k : K) :
    s.contains_key k = s.contains (s.trash k) :=
  rfl

/-- C3: `insert_check` returns `(id, true)` when the id of the key is absent,
`(id, false)` on a second call with the same key before removal, and after
`remove(id)` a subsequent `insert_check` with the key returns `true` again. -/
theorem C3_insert_check_roundtrip {K : Type} (s : TrashSet K) (k : K)
    (h : s.contains (s.trash k) = false) :
    (s.insert_check k).1 = (s.trash k, true) ∧
    (((s.insert_check k).2).insert_check k).1 = (s.trash k, false) ∧
    (((((s.insert_check k).2).remove (s.trash k)).2).insert_check k).1 = (s.trash k, true) := by
  refine ⟨?_, ?_, ?_⟩
  · show (s.trash k, (s.set.insert (s.trash k).hash).1) = (s.trash k, true)
    rw [HSet.fst_insert, show s.set.contains (s.trash k).hash = false from h]
    rfl
  · show (s.trash k, (((s.set.insert (s.trash k).hash).2).insert (s.trash k).hash).1)
        = (s.trash k, false)
    rw [HSet.fst_insert, HSet.contains_insert_self]
    rfl
  · show (s.trash k,
        (((((s.set.insert (s.trash k).hash).2).remove (s.trash k).hash).2).insert
          (s.trash k).hash).1) = (s.trash k, true)
    rw [HSet.fst_insert, HSet.contains_remove_self]
    rfl

/-- Witness for C3 at the concrete set `natSet` and key `5`. -/
theorem C3_witness :
    natSet.contains (natSet.trash 5) = false ∧
    ((natSet.insert_check 5).1 = (natSet.trash 5, true) ∧
      (((natSet.insert_check 5).2).insert_check 5).1 = (natSet.trash 5, false) ∧
      (((((natSet.insert_check 5).2).remove (natSet.trash 5)).2).insert_check 5).1
        = (natSet.trash 5, true)) :=
  ⟨by decide, C3_insert_check_roundtrip natSet 5 (by decide)⟩

/-- C4: inserting the same key twice (first `v1`, then `v2`) leaves only `v2`
retrievable at the shared id; `insert` discards the first value, and
`insert_replace` reports it as the previous value. -/
theorem C4_duplicate_insert {K V : Type} (m : TrashMap K V) (k : K) (v1 v2 : V) :
    (((m.insert k v1).2).insert k v2).1 = (m.insert k v1).1 ∧
    ((((m.insert k v1).2).insert k v2).2).get (m.insert k v1).1 = some v2 ∧
    (((m.insert k v1).2).insert_replace k v2).1 = ((m.insert k v1).1, some v1) ∧
    ((((m.insert k v1).2).insert_replace k v2).2).get (m.insert k v1).1 = some v2 := by
  refine ⟨rfl, ?_, ?_, ?_⟩
  · exact HMap.get_insert_self _ (m.hasher k) v2
  · show (m.trash k, (((m.map.insert (m.hasher k) v1).2)).get (m.hasher k))
        = (m.trash k, some v1)
    rw [HMap.get_insert_self]
  · exact HMap.get_insert_self _ (m.hasher k) v2

/-- C5: when the adapter receives exactly one 64-bit write of value `h`
followed by `finish`, it reports exactly `h` as the final digest, in debug
and release builds alike. -/
theorem C5_known_hash_passthrough (debug : Bool) (h : Nat) :
    KnownHasher.write_u64 debug { hash := none } h = Except.ok { hash := some h } ∧
    KnownHasher.finish { hash := some h } = Except.ok h := by
  constructor
  · unfold KnownHasher.write_u64
    simp
  · rfl

/-- C6 as stated is false at this input: in a release build (debug assertions
compiled out) a second 64-bit write before `finish` is accepted rather than
panicking, and `finish` then succeeds. -/
theorem C6_counterexample :
    KnownHasher.write_u64 false { hash := some 1 } 2 = Except.ok { hash := some 2 } ∧
    KnownHasher.finish { hash := some 2 } = Except.ok 2 :=
  ⟨rfl, rfl⟩

/-- C6 amended: feeding raw bytes panics unconditionally; finishing with no
prior write panics; a repeated 64-bit write panics only when debug assertions
are enabled, and in release builds it is accepted silently. -/
theorem C6_amended_fatal_interactions (h : KnownHasher) (bs : List Nat) (j i : Nat) :
    (∃ e, KnownHasher.write h bs = Except.error e) ∧
    (∃ e, KnownHasher.finish { hash := none } = Except.error e) ∧
    (∃ e, KnownHasher.write_u64 true { hash := some j } i = Except.error e) ∧
    KnownHasher.write_u64 false { hash := some j } i = Except.ok { hash := some i } :=
  ⟨⟨_, rfl⟩, ⟨_, rfl⟩, ⟨_, rfl⟩, rfl⟩

/-- C7: looking up an absent id or key returns `none`/`false`, and removing an
absent id or key returns `none`/`false`; every lookup and removal is a total
operation with no error outcome. -/
theorem C7_absent_returns_no_value {K V : Type} (m : TrashMap K V) (s : TrashSet K)
    (t : Trash) (k : K)
    (hm : m.get t = none) (hs : s.contains t = false)
    (hmk : m.get_key k = none) (hsk : s.contains_key k = false) :
    (m.remove t).1 = none ∧ (s.remove t).1 = false ∧
    (m.remove_key k).1 = none ∧ (s.remove_key k).1 = false :=
  ⟨hm, hs, hmk, hsk⟩

/-- Witness for C7 at the concrete empty containers and id 3 / key 3. -/
theorem C7_witness :
    (natMap.get { hash := 3 } = none ∧ natSet.contains { hash := 3 } = false ∧
      natMap.get_key 3 = none ∧ natSet.contains_key 3 = false) ∧
    ((natMap.remove { hash := 3 }).1 = none ∧ (natSet.remove { hash := 3 }).1 = false ∧
      (natMap.remove_key 3).1 = none ∧ (natSet.remove_key 3).1 = false) :=
  ⟨⟨by decide, by decide, by decide, by decide⟩,
    C7_absent_returns_no_value natMap natSet { hash := 3 } 3
      (by decide) (by decide) (by decide) (by decide)⟩

/-- C8: for keys `k1 ≠ k2` with distinct digests under the fixed strategy
instance, inserting both yields distinct ids, and each id retrieves exactly
its own value (each insertion leaves the other entry unchanged). -/
theorem C8_distinct_digests_distinct_entries {K V : Type} (m : TrashMap K V)
    (k1 k2 : K) (v1 v2 : V) (_hne : k1 ≠ k2) (hh : m.hasher k1 ≠ m.hasher k2) :
    (m.insert k1 v1).1 ≠ (((m.insert k1 v1).2).insert k2 v2).1 ∧
    ((((m.insert k1 v1).2).insert k2 v2).2).get (m.insert k1 v1).1 = some v1 ∧
    ((((m.insert k1 v1).2).insert k2 v2).2).get (((m.insert k1 v1).2).insert k2 v2).1
      = some v2 := by
  refine ⟨?_, ?_, ?_⟩
  · intro hcontra
    exact hh (congrArg Trash.hash hcontra)
  · show ((((m.map.insert (m.hasher k1) v1).2).insert (m.hasher k2) v2).2).get (m.hasher k1)
        = some v1
    rw [HMap.get_insert_other _ _ _ _ hh, HMap.get_insert_self]
  · exact HMap.get_insert_self _ (m.hasher k2) v2

/-- Witness for C8 at the concrete map `natMap`, keys 0 and 1, values 10, 20. -/
theorem C8_witness :
    ((0 : Nat) ≠ 1 ∧ natMap.hasher 0 ≠ natMap.hasher 1) ∧
    ((natMap.insert 0 10).1 ≠ (((natMap.insert 0 10).2).insert 1 20).1 ∧
      ((((natMap.insert 0 10).2).insert 1 20).2).get (natMap.insert 0 10).1 = some 10 ∧
      ((((natMap.insert 0 10).2).insert 1 20).2).get
        (((natMap.insert 0 10).2).insert 1 20).1 = some 20) :=
  ⟨⟨by decide, by decide⟩,
    C8_distinct_digests_distinct_entries natMap 0 1 10 20 (by decide) (by decide)⟩

/-- C9: every key-taking map operation decomposes through `trash`, the sole
hashing entry point: `get_key` is `get` after `trash`, `remove_key` is
`remove` after `trash`, and `insert` computes `trash` and then inserts at
that id. -/
theorem C9_key_ops_decompose {K V : Type} (m : TrashMap K V) (k : K) (v : V) :
    m.get_key k = m.get (m.trash k) ∧
    m.remove_key k = m.remove (m.trash k) ∧
    m.insert k v = (m.trash k, (m.insert_id (m.trash k) v).2) ∧
    m.insert_replace k v
      = ((m.trash k, (m.insert_id (m.trash k) v).1), (m.insert_id (m.trash k) v).2) :=
  ⟨rfl, rfl, rfl, rfl⟩

/-- C10: in a release build (debug assertions off) a second 64-bit write
silently overwrites the first and `finish` reports the most recent value;
the single-write protocol is enforced only when debug assertions are on. -/
theorem C10_double_write_overwrites (h1 h2 : Nat) :
    KnownHasher.write_u64 false { hash := some h1 } h2 = Except.ok { hash := some h2 } ∧
    KnownHasher.finish { hash := some h2 } = Except.ok h2 ∧
    (∃ e, KnownHasher.write_u64 true { hash := some h1 } h2 = Except.error e) :=
  ⟨rfl, rfl, ⟨_, rfl⟩⟩
